import Mathlib

/-!
Verification of `src/examples/c_plugin/example.c` from vapor-ware/synse-sdk.

The C source is a single function:

    int Read(int device, char* model) {
        srand(time(NULL));
        return rand();
    }

We shallowly embed it as a total Lean function over an explicit program
state.  The state carries the value the wall clock currently shows (what
`time(NULL)` would return), the internal state of the global pseudo-random
generator, and an abstract component `env` standing for every other part of
the program state, so that the frame property can be stated.

The C library functions `rand` and `srand` are not part of this repository;
they are modelled by the sample implementation given in the ISO C standard
(C99 7.20.2 / C11 7.22.2), which has `RAND_MAX = 32767` and a generator
state held in an `unsigned long int` (modelled as 64 bits, the common LP64
width).  `srand` takes an `unsigned int` seed, so the time value is reduced
modulo 2^32.  The `model` pointer argument is embedded as `Option String`,
with `none` standing for a null pointer.
-/

set_option maxRecDepth 2000

namespace CPlugin

/-- `RAND_MAX` of the modelled C library (the ISO C sample implementation). -/
def RAND_MAX : Nat := 32767

/-- `INT_MAX` for a 32-bit `int`, the return type of `Read`. -/
def INT_MAX : Int := 2147483647

/-- Width modulus of `unsigned int` (the parameter type of `srand`). -/
def UINT_MOD : Nat := 4294967296

/-- Width modulus of `unsigned long int` (the generator state type). -/
def ULONG_MOD : Nat := 18446744073709551616

/-- libc `srand`: resets the global generator state to the given seed.
The seed parameter has type `unsigned int`, so the argument is reduced
modulo 2^32 on conversion. -/
def srand (seed : Nat) : Nat := seed % UINT_MOD

/-- libc `rand`, ISO C sample implementation: the state update is
`next = next * 1103515245 + 12345` on `unsigned long int`, and the value
returned is `(unsigned int)(next / 65536) % 32768`.  Returns the pair
(value returned, new generator state). -/
def rand (next : Nat) : Nat × Nat :=
  ((((next * 1103515245 + 12345) % ULONG_MOD) / 65536) % 32768,
    (next * 1103515245 + 12345) % ULONG_MOD)

/-- The program state visible to `Read`: the current wall-clock reading
(what `time(NULL)` returns), the internal state of the global pseudo-random
generator, and an abstract remainder `env` covering every other component
of the program state. -/
structure State (σ : Type) where
  clock : Nat
  rngNext : Nat
  env : σ

/-- Shallow embedding of `Read` from `src/examples/c_plugin/example.c`:
`srand(time(NULL)); return rand();`.  The arguments `device` and `model`
are the C parameters `int device` and `char* model` (a null pointer is
`none`); neither occurs in the body, exactly as in the C source.  Returns
the `int` result together with the updated state: `srand` replaces the
generator state with the clock-derived seed and `rand` then advances it
once and yields the drawn value. -/
def Read {σ : Type} (device : Int) (model : Option String) (s : State σ) :
    Int × State σ :=
  (Int.ofNat (rand (srand s.clock)).1,
    { s with rngNext := (rand (srand s.clock)).2 })

/-- The first value drawn from the generator after seeding it with `t`. -/
def firstDraw (t : Nat) : Int := Int.ofNat (rand (srand t)).1

/-- Helper: the value returned by `Read` is exactly the first draw after
seeding with the current clock value. -/
theorem read_fst_eq_firstDraw {σ : Type} (d : Int) (m : Option String)
    (s : State σ) : (Read d m s).1 = firstDraw s.clock := rfl

/-- Helper: `Read` leaves the clock unchanged. -/
theorem read_clock_eq {σ : Type} (d : Int) (m : Option String)
    (s : State σ) : (Read d m s).2.clock = s.clock := by
  simp [Read]

/-- Helper: `Read` leaves the abstract rest of the program state
unchanged. -/
theorem read_env_eq {σ : Type} (d : Int) (m : Option String)
    (s : State σ) : (Read d m s).2.env = s.env := by
  simp [Read]

/-- A sequence of `Read` calls, threading the state; used to express
history independence. -/
def runReads {σ : Type} : List (Int × Option String) → State σ → State σ
  | [], s => s
  | c :: cs, s => runReads cs (Read c.1 c.2 s).2

/-- Helper: running any sequence of `Read` calls leaves the clock
unchanged. -/
theorem runReads_clock {σ : Type} (calls : List (Int × Option String))
    (s : State σ) : (runReads calls s).clock = s.clock := by
  induction calls generalizing s with
  | nil => rfl
  | cons c cs ih => rw [runReads, ih, read_clock_eq]

end CPlugin

namespace CPlugin

/-- C1: a call to `Read` first reseeds the global generator with the
current wall-clock time and returns one value drawn from it: the result at
clock time `t` equals the first output of the generator seeded with `t`,
and the generator state afterwards is the seeded state advanced one step. -/
theorem C1_read_seeds_then_draws {σ : Type} (device : Int)
    (model : Option String) (s : State σ) :
    (Read device model s).1 = firstDraw s.clock ∧
      (Read device model s).2.rngNext = (rand (srand s.clock)).2 :=
  ⟨rfl, rfl⟩

/-- C2: the result of `Read` does not depend on its inputs: from the same
state (same clock and same generator state), any two argument pairs give
the same value and the same final state. -/
theorem C2_read_input_independent {σ : Type} (d1 d2 : Int)
    (m1 m2 : Option String) (s : State σ) :
    Read d1 m1 s = Read d2 m2 s :=
  rfl

/-- C3: `Read` is total and cannot fail: for every `device`, `model` and
state it returns an integer result and an updated state; the embedding has
no error outcome because the C function has no error branch. -/
theorem C3_read_total {σ : Type} (device : Int) (model : Option String)
    (s : State σ) :
    ∃ v : Int, ∃ s2 : State σ, Read device model s = (v, s2) :=
  ⟨(Read device model s).1, (Read device model s).2, rfl⟩

/-- C4: the value returned by `Read` lies within the native signed `int`
range: it is nonnegative and at most `INT_MAX`. -/
theorem C4_read_in_int_range {σ : Type} (device : Int)
    (model : Option String) (s : State σ) :
    0 ≤ (Read device model s).1 ∧ (Read device model s).1 ≤ INT_MAX := by
  constructor
  · exact Int.ofNat_nonneg _
  · show Int.ofNat ((rand (srand s.clock)).1) ≤ INT_MAX
    have h : (rand (srand s.clock)).1 < 32768 := Nat.mod_lt _ (by norm_num)
    have h2 : (rand (srand s.clock)).1 ≤ 2147483647 := le_of_lt
      (lt_of_lt_of_le h (by norm_num))
    exact Int.ofNat_le.mpr h2

/-- C5: two calls to `Read` that observe the same wall-clock value return
the same value, whatever their arguments and whatever the generator state
at each call. -/
theorem C5_read_same_tick_same_value {σ τ : Type} (d1 d2 : Int)
    (m1 m2 : Option String) (s1 : State σ) (s2 : State τ)
    (h : s1.clock = s2.clock) :
    (Read d1 m1 s1).1 = (Read d2 m2 s2).1 := by
  rw [read_fst_eq_firstDraw, read_fst_eq_firstDraw, h]

/-- Witness for C5 at concrete inputs: different arguments and different
generator states, same clock reading. -/
theorem C5_read_same_tick_same_value_witness :
    (Read 1 (some "sensor-a") (⟨5, 1, ()⟩ : State Unit)).1 =
      (Read 2 (some "sensor-b") (⟨5, 99, ()⟩ : State Unit)).1 :=
  C5_read_same_tick_same_value 1 2 (some "sensor-a") (some "sensor-b")
    (⟨5, 1, ()⟩ : State Unit) (⟨5, 99, ()⟩ : State Unit) rfl

/-- C6: `Read` mutates nothing but the generator state: the clock and
every other component of the program state (`env`) are unchanged, and the
by-value arguments are untouched. -/
theorem C6_read_frame {σ : Type} (device : Int) (model : Option String)
    (s : State σ) :
    (Read device model s).2.clock = s.clock ∧
      (Read device model s).2.env = s.env :=
  ⟨read_clock_eq device model s, read_env_eq device model s⟩

/-- C8: the value returned by `Read` is nonnegative and at most
`RAND_MAX`, a strictly tighter range than the signed `int` range promised
by the spec (`RAND_MAX < INT_MAX`). -/
theorem C8_read_in_rand_range {σ : Type} (device : Int)
    (model : Option String) (s : State σ) :
    (0 ≤ (Read device model s).1 ∧
        (Read device model s).1 ≤ Int.ofNat RAND_MAX) ∧
      Int.ofNat RAND_MAX < INT_MAX := by
  refine ⟨⟨Int.ofNat_nonneg _, ?_⟩, by norm_num [RAND_MAX, INT_MAX]⟩
  show Int.ofNat ((rand (srand s.clock)).1) ≤ Int.ofNat RAND_MAX
  have h : (rand (srand s.clock)).1 < 32768 := Nat.mod_lt _ (by norm_num)
  exact Int.ofNat_le.mpr (Nat.lt_succ_iff.mp h)

/-- C9: `Read` never reads through its `model` pointer: any pointer value,
including a null pointer (`none`), gives the identical result and final
state. -/
theorem C9_read_ignores_model {σ : Type} (device : Int)
    (m : Option String) (s : State σ) :
    Read device m s = Read device none s :=
  rfl

/-- C10: `Read` is history independent: after any sequence of prior `Read`
calls and from any generator state, the value returned is determined by
the wall-clock reading alone. -/
theorem C10_read_history_independent {σ τ : Type}
    (calls : List (Int × Option String)) (d1 d2 : Int)
    (m1 m2 : Option String) (s1 : State σ) (s2 : State τ)
    (h : s1.clock = s2.clock) :
    (Read d1 m1 (runReads calls s1)).1 = (Read d2 m2 s2).1 := by
  rw [read_fst_eq_firstDraw, read_fst_eq_firstDraw, runReads_clock, h]

/-- Witness for C10 at concrete inputs: after one prior call and from a
different generator state, the value equals that of a fresh call at the
same clock reading. -/
theorem C10_read_history_independent_witness :
    (Read 1 (some "sensor-a")
        (runReads [(7, none)] (⟨5, 3, ()⟩ : State Unit))).1 =
      (Read 2 (some "sensor-b") (⟨5, 42, ()⟩ : State Unit)).1 :=
  C10_read_history_independent [(7, none)] 1 2 (some "sensor-a")
    (some "sensor-b") (⟨5, 3, ()⟩ : State Unit)
    (⟨5, 42, ()⟩ : State Unit) rfl

end CPlugin
